import Mathlib

/-!
# Verification of the result-serialization subsystem (`src/src/GZipWriter.cpp`)

A shallow embedding of the four top-level writer operations of `GZipWriter`:
`writeEquivCounts`, `writeMeta`, `writeAbundances` and `writeBootstrap`.
C++ `double` values are modelled as exact rationals (`ℚ`); note that in Lean
division by zero yields `0`.  File-system effects are modelled as explicit
output records: each operation returns the uncompressed payloads it writes
together with its boolean result, and the (possibly mutated) experiment.
-/

/-- One entry of the experiment's transcript list.  Fields are exactly the ones
`GZipWriter.cpp` reads or writes: `RefName`, `RefLength`, `EffectiveLength`,
`mass(bool)`, `sharedCount()` and the mutable `projectedCounts`. -/
structure Transcript where
  RefName : String
  RefLength : Nat
  EffectiveLength : ℚ
  mass : Bool → ℚ
  sharedCount : ℚ
  projectedCounts : ℚ

/-- `TranscriptGroup`: the ordered list of transcript ids of one equivalence
class (`tgroup.txps` in the source). -/
structure TranscriptGroup where
  txps : List Nat

/-- `TGValue`: the fragment count attached to one equivalence class
(`eq.second.count`, a `uint64_t`). -/
structure TGValue where
  count : Nat

/-- The experiment state consumed by the writers, restricted to the accessors
`GZipWriter.cpp` actually calls. -/
structure Experiment where
  transcripts : List Transcript
  eqVec : List (TranscriptGroup × TGValue)
  libStrings : List String
  fldLogPMF : List ℚ
  expectedSeqBias : List ℚ
  readBiasCountsFwd : List Int
  readBiasCountsRC : List Int
  numObservedFragments : Nat
  numMappedFragments : Nat
  effectiveMappingRate : ℚ
  upperBoundHits : ℚ

/-- The subset of `SalmonOpts` read by `GZipWriter.cpp`. -/
structure SalmonOpts where
  auxDir : String
  numBootstraps : Nat
  numGibbsSamples : Nat
  biasCorrect : Bool
  gcBiasCorrect : Bool
  alnMode : Bool
  useQuasi : Bool
  allowOrphans : Bool

/-! ## `GZipWriter::writeEquivCounts` (lines 56-98) -/

/-- Output of `writeEquivCounts`: the text written to `eq_classes.txt`, the
experiment after the call (the source only reads it), and the returned Bool. -/
structure EquivOutput where
  content : String
  experiment : Experiment
  result : Bool

/-- Shallow embedding of `GZipWriter::writeEquivCounts`.  The stream insertions
of the source are replayed in order onto an accumulating string, the loops
becoming left folds.  `ioError` models whether any underlying stream operation
failed (`std::ofstream` open or write failure): the source never inspects the
stream state, so the model cannot depend on it. -/
def writeEquivCounts (opts : SalmonOpts) (experiment : Experiment)
    (ioError : Bool) : EquivOutput :=
  let content0 := toString experiment.transcripts.length ++ "\n" ++
    toString experiment.eqVec.length ++ "\n"
  let content1 := experiment.transcripts.foldl
    (fun acc t => acc ++ t.RefName ++ "\n") content0
  let content2 := experiment.eqVec.foldl
    (fun acc eq =>
      let acc := acc ++ toString eq.1.txps.length ++ "\t"
      let acc := eq.1.txps.foldl (fun a tid => a ++ toString tid ++ "\t") acc
      acc ++ toString eq.2.count ++ "\n")
    content1
  { content := content2, experiment := experiment, result := true }

/-! ## `GZipWriter::writeMeta` (lines 123-301) -/

/-- Modelled from the spec: `salmon::version` is defined outside `src/`; the
manifest only needs some fixed version string. -/
def salmonVersion : String := "0.7.2"

/-- Modelled from the spec: `distribution_utils::samplesFromLogPMF` lives in
`DistributionUtils.hpp/cpp`, which is not under `src/`.  The spec (section 6)
states the sampler returns exactly `n` integer samples drawn from the log-PMF;
only that arity is relied upon, so the sample values are left at zero. -/
def samplesFromLogPMF (logPMF : List ℚ) (n : Nat) : List Int :=
  List.replicate n 0

/-- JSON values appearing in `meta_info.json`. -/
inductive JVal where
  | str : String → JVal
  | nat : Nat → JVal
  | num : ℚ → JVal
  | bool : Bool → JVal
  | strList : List String → JVal
deriving DecidableEq

/-- The single line written to `bootstrap/names.tsv.gz` (uncompressed): each
name, a tab after all but the last, then a newline (source lines 150-157). -/
def namesPayload (ts : List Transcript) : String :=
  String.intercalate "\t" (ts.map (fun t => t.RefName)) ++ "\n"

/-- The ordered name/value pairs written to `meta_info.json` by the cereal
JSON archive (source lines 264-299). -/
def metaInfoJson (opts : SalmonOpts) (experiment : Experiment)
    (tstring : String) (numBootstraps numSamples : Nat) :
    List (String × JVal) :=
  let sampType0 : String := "none"
  let sampType1 := if numBootstraps = 0 ∧ 0 < numSamples then "gibbs" else sampType0
  let sampType := if 0 < numBootstraps then "bootstrap" else sampType1
  let libStrings := experiment.libStrings
  let fldSamples := samplesFromLogPMF experiment.fldLogPMF 10000
  let mapTypeStr := if opts.alnMode then "alignment" else "mapping"
  [("salmon_version", JVal.str salmonVersion),
   ("samp_type", JVal.str sampType),
   ("num_libraries", JVal.nat libStrings.length),
   ("library_types", JVal.strList libStrings),
   ("frag_dist_length", JVal.nat fldSamples.length),
   ("seq_bias_correct", JVal.bool opts.biasCorrect),
   ("gc_bias_correct", JVal.bool opts.gcBiasCorrect),
   ("num_bias_bins", JVal.nat experiment.readBiasCountsFwd.length),
   ("mapping_type", JVal.str mapTypeStr),
   ("num_targets", JVal.nat experiment.transcripts.length),
   ("num_bootstraps", JVal.nat numSamples),
   ("num_processed", JVal.nat experiment.numObservedFragments),
   ("num_mapped", JVal.nat experiment.numMappedFragments),
   ("percent_mapped", JVal.num (experiment.effectiveMappingRate * 100)),
   ("call", JVal.str "quant"),
   ("start_time", JVal.str tstring)]

/-- Output of `writeMeta`, restricted to the artifacts the claims mention:
whether `aux_dir/bootstrap/` was created, the uncompressed payload of
`bootstrap/names.tsv.gz` (`none` when the file was never opened; `some ""`
when the sink was opened but nothing written to it), the manifest key/value
list of `meta_info.json` (`none` when the early return skips it), and the
returned Bool. -/
structure MetaOutput where
  success : Bool
  bootstrapDirCreated : Bool
  namesContent : Option String
  metaInfo : Option (List (String × JVal))

/-- Shallow embedding of `GZipWriter::writeMeta`.  Mirrors the source control
flow: `numSamples` selects bootstraps over Gibbs samples; when it is positive
the bootstrap directory is created and the `names.tsv.gz` file sink is opened
(source line 145) before the zero-transcript guard (line 149), so on the early
`return false` the file exists with an empty payload. -/
def writeMeta (opts : SalmonOpts) (experiment : Experiment)
    (tstring : String) : MetaOutput :=
  let numBootstraps := opts.numBootstraps
  let numSamples := if 0 < numBootstraps then numBootstraps else opts.numGibbsSamples
  if 0 < numSamples then
    if experiment.transcripts.length = 0 then
      { success := false, bootstrapDirCreated := true,
        namesContent := some "", metaInfo := none }
    else
      { success := true, bootstrapDirCreated := true,
        namesContent := some (namesPayload experiment.transcripts),
        metaInfo := some (metaInfoJson opts experiment tstring numBootstraps numSamples) }
  else
    { success := true, bootstrapDirCreated := false, namesContent := none,
      metaInfo := some (metaInfoJson opts experiment tstring numBootstraps numSamples) }

/-! ## `GZipWriter::writeAbundances` (lines 303-349) -/

/-- One data row of `quant.sf`:
`RefName\tRefLength\tEffectiveLength\tTPM\tNumReads`. -/
structure QuantRow where
  name : String
  length : Nat
  effectiveLength : ℚ
  tpm : ℚ
  numReads : ℚ

/-- Output of `writeAbundances`: the header line, the data rows in emission
order, the experiment after the call (its transcripts' `projectedCounts` are
reassigned), and the returned Bool. -/
structure AbundanceOutput where
  header : String
  rows : List QuantRow
  readExp : Experiment
  result : Bool

/-- Shallow embedding of `GZipWriter::writeAbundances`.  First loop: reassign
every `projectedCounts` (scaled mass or shared count).  Second loop: accumulate
`tfracDenom`.  Third loop: emit one row per transcript. -/
def writeAbundances (sopt : SalmonOpts) (readExp : Experiment) : AbundanceOutput :=
  let useScaledCounts := (!sopt.useQuasi) && (sopt.allowOrphans == false)
  let numMappedFrags : ℚ := readExp.upperBoundHits
  let transcripts2 := readExp.transcripts.map (fun transcript =>
    { transcript with projectedCounts :=
        if useScaledCounts then transcript.mass false * numMappedFrags
        else transcript.sharedCount })
  let tfracDenom := transcripts2.foldl
    (fun acc transcript =>
      acc + (transcript.projectedCounts / numMappedFrags) / transcript.EffectiveLength)
    0
  let million : ℚ := 1000000
  let rows := transcripts2.map (fun transcript =>
    let count := transcript.projectedCounts
    let npm := transcript.projectedCounts / numMappedFrags
    let effLength := transcript.EffectiveLength
    let tfrac := (npm / effLength) / tfracDenom
    let tpm := tfrac * million
    { name := transcript.RefName, length := transcript.RefLength,
      effectiveLength := effLength, tpm := tpm, numReads := count : QuantRow })
  { header := "Name\tLength\tEffectiveLength\tTPM\tNumReads\n",
    rows := rows,
    readExp := { readExp with transcripts := transcripts2 },
    result := true }

/-! ## `GZipWriter::writeBootstrap` (lines 351-375) -/

/-- The mutable `GZipWriter` state touched by `writeBootstrap`: whether the
lazy `bsStream_` has been created, the uncompressed bytes so far written to
`bootstrap/bootstraps.gz`, the atomic `numBootstrapsWritten_` counter, and the
messages emitted through `logger_`. -/
structure GZipWriterState where
  bsStreamOpen : Bool
  bsBytes : List Nat
  numBootstrapsWritten : Nat
  logMessages : List String

/-- Shallow embedding of `GZipWriter::writeBootstrap`.  The abundance vector is
given element-wise as raw bytes (`enc a` is the `sizeof(T)`-byte native
representation of element `a`).  Under the mutex the source lazily opens the
stream, appends `abund.size() * sizeof(T)` raw bytes, logs
`wrote N bootstraps` with `N` the pre-increment counter plus one, then
increments the counter. -/
def writeBootstrap {α : Type} (enc : α → List Nat) (abund : List α)
    (st : GZipWriterState) : GZipWriterState × Bool :=
  let st1 := if st.bsStreamOpen then st else { st with bsStreamOpen := true }
  let written := (abund.map enc).flatten
  let msg := "wrote " ++ toString (st1.numBootstrapsWritten + 1) ++ " bootstraps"
  ({ st1 with
      bsBytes := st1.bsBytes ++ written,
      logMessages := st1.logMessages ++ [msg],
      numBootstrapsWritten := st1.numBootstrapsWritten + 1 },
   true)

/-! ## Concrete inputs used by witnesses and counterexamples -/

/-- A default options record: default aux directory, no resampling, no bias
correction, quasi-mapping mode with orphans allowed. -/
def wOpts : SalmonOpts :=
  { auxDir := "aux_info", numBootstraps := 0, numGibbsSamples := 0,
    biasCorrect := false, gcBiasCorrect := false, alnMode := false,
    useQuasi := false, allowOrphans := false }

/-- The same options with four bootstraps requested. -/
def wOpts4 : SalmonOpts := { wOpts with numBootstraps := 4 }

/-- A single concrete transcript. -/
def wTxpA : Transcript :=
  { RefName := "A", RefLength := 100, EffectiveLength := 2,
    mass := fun _ => 1, sharedCount := 5, projectedCounts := 0 }

/-- A one-transcript experiment with ten mapped fragments. -/
def wExp : Experiment :=
  { transcripts := [wTxpA],
    eqVec := [({ txps := [0] }, { count := 3 })],
    libStrings := ["U"], fldLogPMF := [], expectedSeqBias := [],
    readBiasCountsFwd := [1, 2], readBiasCountsRC := [3, 4],
    numObservedFragments := 50, numMappedFragments := 40,
    effectiveMappingRate := 4 / 5, upperBoundHits := 10 }

/-- An experiment with zero transcripts. -/
def emptyExp : Experiment :=
  { transcripts := [], eqVec := [], libStrings := [], fldLogPMF := [],
    expectedSeqBias := [], readBiasCountsFwd := [], readBiasCountsRC := [],
    numObservedFragments := 0, numMappedFragments := 0,
    effectiveMappingRate := 0, upperBoundHits := 0 }

/-- A two-byte encoding of small naturals, standing in for `sizeof(T) = 2`. -/
def wEnc : Nat → List Nat := fun a => [a, 0]

/-- A fresh writer state: stream not yet opened, nothing written. -/
def wSt : GZipWriterState :=
  { bsStreamOpen := false, bsBytes := [], numBootstrapsWritten := 0,
    logMessages := [] }

/-! ## Helper lemmas -/

/-- Left fold of string append starting from `a` prepends `a` to the join. -/
lemma string_foldl_append :
    ∀ (l : List String) (a : String),
      l.foldl (fun r s => r ++ s) a = a ++ String.join l
  | [], a => by simp [String.join]
  | x :: l, a => by
    rw [List.foldl_cons, string_foldl_append l (a ++ x)]
    have hj : String.join (x :: l) = x ++ String.join l := by
      have h1 : String.join (x :: l) =
          List.foldl (fun r s => r ++ s) "" (x :: l) := rfl
      rw [h1, List.foldl_cons, string_foldl_append l ("" ++ x),
        String.empty_append]
    rw [hj, String.append_assoc]

/-- `String.join` splits off its head. -/
lemma string_join_cons (x : String) (l : List String) :
    String.join (x :: l) = x ++ String.join l := by
  have h1 : String.join (x :: l) =
      List.foldl (fun r s => r ++ s) "" (x :: l) := rfl
  rw [h1, List.foldl_cons, string_foldl_append l ("" ++ x), String.empty_append]

/-- Folding `acc ++ f x ++ g x` over a list appends the join of the per-element
strings to the initial accumulator. -/
lemma foldl_append2_map {α : Type} (f g : α → String) :
    ∀ (l : List α) (s : String),
      l.foldl (fun a x => a ++ f x ++ g x) s =
        s ++ String.join (l.map (fun x => f x ++ g x))
  | [], s => by simp [String.join]
  | x :: l, s => by
    rw [List.foldl_cons, foldl_append2_map f g l (s ++ f x ++ g x),
      List.map_cons, string_join_cons]
    simp [String.append_assoc]

/-- Folding `acc ++ f x` over a list appends the join of the per-element
strings to the initial accumulator. -/
lemma foldl_append_map {α : Type} (f : α → String) :
    ∀ (l : List α) (s : String),
      l.foldl (fun a x => a ++ f x) s = s ++ String.join (l.map f)
  | [], s => by simp [String.join]
  | x :: l, s => by
    rw [List.foldl_cons, foldl_append_map f l (s ++ f x), List.map_cons,
      string_join_cons, String.append_assoc]

/-- Folding `acc + f x` over a list adds the sum of the mapped values. -/
lemma foldl_add_map {α : Type} (f : α → ℚ) :
    ∀ (l : List α) (a : ℚ),
      l.foldl (fun acc x => acc + f x) a = a + (l.map f).sum
  | [], a => by simp
  | x :: l, a => by
    rw [List.foldl_cons, foldl_add_map f l (a + f x)]
    rw [List.map_cons, List.sum_cons]
    ring

/-- Dividing every element by `S` and scaling by `c` commutes with summation. -/
lemma sum_map_div_mul (S c : ℚ) :
    ∀ (l : List ℚ), (l.map (fun x => x / S * c)).sum = l.sum / S * c
  | [] => by simp
  | x :: l => by
    rw [List.map_cons, List.sum_cons, List.sum_cons, sum_map_div_mul S c l]
    ring

/-- The flattened length of a map whose images all have length `n`. -/
lemma flatten_map_length_const {α : Type} (enc : α → List Nat) (n : Nat) :
    ∀ (l : List α), (∀ a ∈ l, (enc a).length = n) →
      ((l.map enc).flatten).length = l.length * n
  | [], _ => by simp
  | x :: l, h => by
    rw [List.map_cons, List.flatten_cons, List.length_append,
      flatten_map_length_const enc n l (fun a ha => h a (List.mem_cons_of_mem _ ha)),
      h x (List.mem_cons_self _ _), List.length_cons]
    ring

/-! ## Claim theorems -/

/-- Claim C3: `writeAbundances` sets each transcript's `projectedCounts` to
`mass(false) * numMappedFrags` when `useScaledCounts` holds and to
`sharedCount()` otherwise, where `useScaledCounts = (not useQuasi) and
(not allowOrphans)` and `numMappedFrags` is the scalar `upperBoundHits`
captured once before the loop; the `NumReads` column of each `quant.sf` row
equals that transcript's `projectedCounts`. -/
theorem writeAbundances_projected_counts_rule (sopt : SalmonOpts)
    (readExp : Experiment) :
    (writeAbundances sopt readExp).readExp.transcripts =
      readExp.transcripts.map (fun t =>
        { t with projectedCounts :=
            if (!sopt.useQuasi) && (!sopt.allowOrphans) then
              t.mass false * readExp.upperBoundHits
            else t.sharedCount }) ∧
    (writeAbundances sopt readExp).rows.map (fun r => r.numReads) =
      (writeAbundances sopt readExp).readExp.transcripts.map
        (fun t => t.projectedCounts) := by
  constructor
  · cases h : sopt.allowOrphans <;>
      simp [writeAbundances, h]
  · simp [writeAbundances, List.map_map]

/-- Claim C4: the TPM emitted for transcript `i` equals
`(npm_i / EffectiveLength_i) / D * 10^6` with `npm_i =
projectedCounts_i / numMappedFrags` and `D = sum_i npm_i / EffectiveLength_i`,
and the rows of `quant.sf` appear in transcript iteration order under the
fixed header line. -/
theorem writeAbundances_tpm_rule (sopt : SalmonOpts) (readExp : Experiment) :
    (writeAbundances sopt readExp).header =
      "Name\tLength\tEffectiveLength\tTPM\tNumReads\n" ∧
    (writeAbundances sopt readExp).rows =
      (writeAbundances sopt readExp).readExp.transcripts.map (fun t =>
        { name := t.RefName, length := t.RefLength,
          effectiveLength := t.EffectiveLength,
          tpm := ((t.projectedCounts / readExp.upperBoundHits) /
                t.EffectiveLength) /
              (((writeAbundances sopt readExp).readExp.transcripts.map
                (fun u => (u.projectedCounts / readExp.upperBoundHits) /
                  u.EffectiveLength)).sum) * 1000000,
          numReads := t.projectedCounts : QuantRow }) := by
  refine ⟨rfl, ?_⟩
  simp only [writeAbundances, foldl_add_map, zero_add]

/-- The row emitted for one equivalence class:
group size, a tab, each txp id followed by a tab, then the count and a
newline. -/
def eqClassRow (eq : TranscriptGroup × TGValue) : String :=
  toString eq.1.txps.length ++ "\t" ++
    String.join (eq.1.txps.map (fun tid => toString tid ++ "\t")) ++
    toString eq.2.count ++ "\n"

/-- Claim C6: `eq_classes.txt` consists of the transcript count line, the
equivalence-class count line, one line per transcript name in experiment
order, then one row per equivalence class of the shape
`size TAB id1 TAB ... idK TAB count NEWLINE` (a tab after every id including
the last, ids in the group's native order), the size being the number of ids
on the row. -/
theorem writeEquivCounts_format (opts : SalmonOpts) (experiment : Experiment)
    (ioError : Bool) :
    (writeEquivCounts opts experiment ioError).content =
      toString experiment.transcripts.length ++ "\n" ++
      toString experiment.eqVec.length ++ "\n" ++
      String.join (experiment.transcripts.map (fun t => t.RefName ++ "\n")) ++
      String.join (experiment.eqVec.map eqClassRow) := by
  show (experiment.eqVec.foldl _ (experiment.transcripts.foldl _ _)) = _
  have hbody : (fun (acc : String) (eq : TranscriptGroup × TGValue) =>
      let acc1 := acc ++ toString eq.1.txps.length ++ "\t"
      let acc2 := eq.1.txps.foldl (fun a tid => a ++ toString tid ++ "\t") acc1
      acc2 ++ toString eq.2.count ++ "\n") =
      fun acc eq => acc ++ eqClassRow eq := by
    funext acc eq
    show eq.1.txps.foldl (fun a tid => a ++ toString tid ++ "\t")
        (acc ++ toString eq.1.txps.length ++ "\t") ++
        toString eq.2.count ++ "\n" = acc ++ eqClassRow eq
    rw [foldl_append2_map (fun tid => toString tid) (fun _ => "\t")]
    simp [eqClassRow, String.append_assoc]
  rw [hbody, foldl_append_map]
  simp only [foldl_append2_map]

/-- Claim C7 counterexample: on an input where the underlying stream failed
(`ioError = true`, so the file was not written and closed without error),
`writeEquivCounts` still returns `true`, contradicting the claim that any I/O
failure is surfaced as a `false` return value: the source returns `true`
unconditionally (line 97) and never inspects the stream state. -/
theorem writeEquivCounts_ioerror_counterexample :
    (writeEquivCounts wOpts wExp true).result = true := rfl

/-- Claim C7 (amended): `writeEquivCounts` always returns `true`; stream open
or write failures are not reflected in the return value. -/
theorem writeEquivCounts_always_true (opts : SalmonOpts)
    (experiment : Experiment) (ioError : Bool) :
    (writeEquivCounts opts experiment ioError).result = true := rfl

/-- Claim C10: `writeEquivCounts` leaves the experiment unchanged, and
`writeAbundances` modifies only the `projectedCounts` field of each transcript
(`RefName`, `RefLength`, `EffectiveLength`, `mass`, `sharedCount` survive, as
do the equivalence classes and every other experiment field). -/
theorem writer_frame_effects (opts sopt : SalmonOpts)
    (experiment : Experiment) (ioError : Bool) :
    (writeEquivCounts opts experiment ioError).experiment = experiment ∧
    (writeAbundances sopt experiment).readExp.transcripts.map
        (fun t => { t with projectedCounts := 0 }) =
      experiment.transcripts.map (fun t => { t with projectedCounts := 0 }) ∧
    (writeAbundances sopt experiment).readExp.eqVec = experiment.eqVec ∧
    (writeAbundances sopt experiment).readExp.libStrings =
      experiment.libStrings ∧
    (writeAbundances sopt experiment).readExp.fldLogPMF =
      experiment.fldLogPMF ∧
    (writeAbundances sopt experiment).readExp.expectedSeqBias =
      experiment.expectedSeqBias ∧
    (writeAbundances sopt experiment).readExp.readBiasCountsFwd =
      experiment.readBiasCountsFwd ∧
    (writeAbundances sopt experiment).readExp.readBiasCountsRC =
      experiment.readBiasCountsRC ∧
    (writeAbundances sopt experiment).readExp.numObservedFragments =
      experiment.numObservedFragments ∧
    (writeAbundances sopt experiment).readExp.numMappedFragments =
      experiment.numMappedFragments ∧
    (writeAbundances sopt experiment).readExp.effectiveMappingRate =
      experiment.effectiveMappingRate ∧
    (writeAbundances sopt experiment).readExp.upperBoundHits =
      experiment.upperBoundHits := by
  refine ⟨rfl, ?_, rfl, rfl, rfl, rfl, rfl, rfl, rfl, rfl, rfl, rfl⟩
  simp [writeAbundances, List.map_map]

/-- Claim C2: when `numMappedFrags > 0`, every transcript has non-negative
`projectedCounts` and `EffectiveLength`, and at least one transcript has both
positive, the TPM values emitted by `writeAbundances` sum to exactly `10^6`
(exact rational arithmetic). -/
theorem writeAbundances_tpm_sum (sopt : SalmonOpts) (readExp : Experiment)
    (hN : 0 < readExp.upperBoundHits)
    (hnn : ∀ t ∈ (writeAbundances sopt readExp).readExp.transcripts,
      0 ≤ t.projectedCounts ∧ 0 ≤ t.EffectiveLength)
    (hpos : ∃ t ∈ (writeAbundances sopt readExp).readExp.transcripts,
      0 < t.projectedCounts ∧ 0 < t.EffectiveLength) :
    ((writeAbundances sopt readExp).rows.map (fun r => r.tpm)).sum = 1000000 := by
  obtain ⟨t0, ht0, ht0c, ht0L⟩ := hpos
  have hrows : (writeAbundances sopt readExp).rows.map (fun r => r.tpm) =
      ((writeAbundances sopt readExp).readExp.transcripts.map
        (fun u => (u.projectedCounts / readExp.upperBoundHits) /
          u.EffectiveLength)).map (fun x =>
            x / (((writeAbundances sopt readExp).readExp.transcripts.map
              (fun u => (u.projectedCounts / readExp.upperBoundHits) /
                u.EffectiveLength)).sum) * 1000000) := by
    simp only [writeAbundances, List.map_map, foldl_add_map, zero_add]
    rfl
  set S := ((writeAbundances sopt readExp).readExp.transcripts.map
    (fun u => (u.projectedCounts / readExp.upperBoundHits) /
      u.EffectiveLength)).sum with hS
  have hSpos : 0 < S := by
    rw [hS]
    have hmem : (t0.projectedCounts / readExp.upperBoundHits) /
        t0.EffectiveLength ∈
        (writeAbundances sopt readExp).readExp.transcripts.map
          (fun u => (u.projectedCounts / readExp.upperBoundHits) /
            u.EffectiveLength) := List.mem_map_of_mem _ ht0
    have helem : 0 < (t0.projectedCounts / readExp.upperBoundHits) /
        t0.EffectiveLength := div_pos (div_pos ht0c hN) ht0L
    have hle := List.single_le_sum (l := (writeAbundances sopt
        readExp).readExp.transcripts.map
          (fun u => (u.projectedCounts / readExp.upperBoundHits) /
            u.EffectiveLength))
      (fun x hx => by
        obtain ⟨u, hu, rfl⟩ := List.mem_map.mp hx
        exact div_nonneg (div_nonneg (hnn u hu).1 hN.le) (hnn u hu).2)
      _ hmem
    exact lt_of_lt_of_le helem hle
  rw [hrows, sum_map_div_mul, ← hS, div_self (ne_of_gt hSpos), one_mul]

/-- Claim C2 witness: the hypotheses hold at the concrete one-transcript
experiment `wExp` (ten mapped fragments, effective length two), and the TPM
column sums to one million there. -/
theorem writeAbundances_tpm_sum_witness :
    ((writeAbundances wOpts wExp).rows.map (fun r => r.tpm)).sum = 1000000 :=
  writeAbundances_tpm_sum wOpts wExp (by norm_num [wExp])
    (by
      intro t ht
      simp [writeAbundances, wOpts, wExp, wTxpA] at ht
      subst ht
      norm_num)
    ⟨_, List.mem_cons_self _ _, by norm_num [writeAbundances, wOpts, wExp, wTxpA],
      by norm_num [writeAbundances, wOpts, wExp, wTxpA]⟩

/-- Claim C8: one `writeBootstrap` call returns `true`, leaves the lazily
created stream open, appends exactly `len * sizeof(element)` raw bytes of the
vector contents to the bootstrap stream, logs `wrote N bootstraps` with `N`
the pre-call written-count plus one, and increments the written-count by
exactly one. -/
theorem writeBootstrap_append {α : Type} (enc : α → List Nat) (elSize : Nat)
    (abund : List α) (st : GZipWriterState)
    (h : ∀ a ∈ abund, (enc a).length = elSize) :
    (writeBootstrap enc abund st).2 = true ∧
    (writeBootstrap enc abund st).1.bsStreamOpen = true ∧
    (writeBootstrap enc abund st).1.bsBytes =
      st.bsBytes ++ (abund.map enc).flatten ∧
    (writeBootstrap enc abund st).1.bsBytes.length =
      st.bsBytes.length + abund.length * elSize ∧
    (writeBootstrap enc abund st).1.logMessages =
      st.logMessages ++
        ["wrote " ++ toString (st.numBootstrapsWritten + 1) ++ " bootstraps"] ∧
    (writeBootstrap enc abund st).1.numBootstrapsWritten =
      st.numBootstrapsWritten + 1 := by
  have hlen := flatten_map_length_const enc elSize abund h
  by_cases hopen : st.bsStreamOpen <;>
    simp [writeBootstrap, hopen, hlen, List.length_append]

/-- Claim C8 witness: drawn at a concrete two-element vector with a two-byte
element encoding and a fresh writer state. -/
theorem writeBootstrap_append_witness :
    (writeBootstrap wEnc [1, 2] wSt).2 = true ∧
    (writeBootstrap wEnc [1, 2] wSt).1.bsStreamOpen = true ∧
    (writeBootstrap wEnc [1, 2] wSt).1.bsBytes =
      wSt.bsBytes ++ ([1, 2].map wEnc).flatten ∧
    (writeBootstrap wEnc [1, 2] wSt).1.bsBytes.length =
      wSt.bsBytes.length + [1, 2].length * 2 ∧
    (writeBootstrap wEnc [1, 2] wSt).1.logMessages =
      wSt.logMessages ++
        ["wrote " ++ toString (wSt.numBootstrapsWritten + 1) ++ " bootstraps"] ∧
    (writeBootstrap wEnc [1, 2] wSt).1.numBootstrapsWritten =
      wSt.numBootstrapsWritten + 1 :=
  writeBootstrap_append wEnc 2 [1, 2] wSt (by decide)

/-- Claim C5: `writeMeta` computes `num_samples` as `numBootstraps` when
positive and `numGibbsSamples` otherwise; it creates the bootstrap directory
and opens `names.tsv.gz` exactly when `num_samples > 0`; and whenever
`meta_info.json` is written, its `samp_type` is `bootstrap` over `gibbs` over
`none` and its `num_bootstraps` field carries `num_samples`. -/
theorem writeMeta_sampling_rules (opts : SalmonOpts) (experiment : Experiment)
    (tstring : String) :
    (writeMeta opts experiment tstring).bootstrapDirCreated =
      decide (0 < (if 0 < opts.numBootstraps then opts.numBootstraps
        else opts.numGibbsSamples)) ∧
    (writeMeta opts experiment tstring).namesContent.isSome =
      decide (0 < (if 0 < opts.numBootstraps then opts.numBootstraps
        else opts.numGibbsSamples)) ∧
    ∀ m, (writeMeta opts experiment tstring).metaInfo = some m →
      List.lookup "samp_type" m = some (JVal.str
        (if 0 < opts.numBootstraps then "bootstrap"
         else if 0 < opts.numGibbsSamples then "gibbs" else "none")) ∧
      List.lookup "num_bootstraps" m = some (JVal.nat
        (if 0 < opts.numBootstraps then opts.numBootstraps
         else opts.numGibbsSamples)) := by
  rcases Nat.eq_zero_or_pos opts.numBootstraps with hb | hb
  · rcases Nat.eq_zero_or_pos opts.numGibbsSamples with hg | hg
    · simp [writeMeta, metaInfoJson, List.lookup, hb, hg]
    · by_cases he : experiment.transcripts.length = 0
      · simp [writeMeta, metaInfoJson, List.lookup, hb, hg, he]
      · simp [writeMeta, metaInfoJson, List.lookup, hb, hg, he]
  · by_cases he : experiment.transcripts.length = 0
    · simp [writeMeta, metaInfoJson, List.lookup, hb, he]
    · simp [writeMeta, metaInfoJson, List.lookup, hb, he]

/-- Claim C5 witness: with four bootstraps on the one-transcript experiment,
the manifest labels the sampling `bootstrap` and carries four samples. -/
theorem writeMeta_sampling_rules_witness :
    List.lookup "samp_type" (metaInfoJson wOpts4 wExp "start" 4 4) =
      some (JVal.str "bootstrap") ∧
    List.lookup "num_bootstraps" (metaInfoJson wOpts4 wExp "start" 4 4) =
      some (JVal.nat 4) := by
  have h := (writeMeta_sampling_rules wOpts4 wExp "start").2.2
    (metaInfoJson wOpts4 wExp "start" 4 4) rfl
  simpa [wOpts4, wOpts] using h

/-- Claim C9: for a non-empty experiment, `meta_info.json` holds exactly the
sixteen documented keys in order, `call` is the literal `quant`,
`percent_mapped` is `effectiveMappingRate * 100`, `num_targets` is the
transcript count and `frag_dist_length` is `10000`. -/
theorem writeMeta_manifest_shape (opts : SalmonOpts) (experiment : Experiment)
    (tstring : String) (h : 0 < experiment.transcripts.length) :
    ∃ m, (writeMeta opts experiment tstring).metaInfo = some m ∧
      m.map Prod.fst = ["salmon_version", "samp_type", "num_libraries",
        "library_types", "frag_dist_length", "seq_bias_correct",
        "gc_bias_correct", "num_bias_bins", "mapping_type", "num_targets",
        "num_bootstraps", "num_processed", "num_mapped", "percent_mapped",
        "call", "start_time"] ∧
      List.lookup "call" m = some (JVal.str "quant") ∧
      List.lookup "percent_mapped" m =
        some (JVal.num (experiment.effectiveMappingRate * 100)) ∧
      List.lookup "num_targets" m =
        some (JVal.nat experiment.transcripts.length) ∧
      List.lookup "frag_dist_length" m = some (JVal.nat 10000) := by
  have hne : experiment.transcripts.length ≠ 0 := Nat.pos_iff_ne_zero.mp h
  refine ⟨metaInfoJson opts experiment tstring opts.numBootstraps
    (if 0 < opts.numBootstraps then opts.numBootstraps
     else opts.numGibbsSamples), ?_, ?_, ?_, ?_, ?_, ?_⟩
  · by_cases hs : 0 < (if 0 < opts.numBootstraps then opts.numBootstraps
      else opts.numGibbsSamples) <;>
      simp [writeMeta, hs, hne]
  · simp [metaInfoJson]
  · simp [metaInfoJson, List.lookup]
  · simp [metaInfoJson, List.lookup]
  · simp [metaInfoJson, List.lookup]
  · have : (samplesFromLogPMF experiment.fldLogPMF 10000).length = 10000 := by
      simp only [samplesFromLogPMF, List.length_replicate]
    simp [metaInfoJson, List.lookup, this]

/-- Claim C9 witness: the manifest shape at the concrete one-transcript
experiment. -/
theorem writeMeta_manifest_shape_witness :
    ∃ m, (writeMeta wOpts wExp "start").metaInfo = some m ∧
      m.map Prod.fst = ["salmon_version", "samp_type", "num_libraries",
        "library_types", "frag_dist_length", "seq_bias_correct",
        "gc_bias_correct", "num_bias_bins", "mapping_type", "num_targets",
        "num_bootstraps", "num_processed", "num_mapped", "percent_mapped",
        "call", "start_time"] ∧
      List.lookup "call" m = some (JVal.str "quant") ∧
      List.lookup "percent_mapped" m =
        some (JVal.num (wExp.effectiveMappingRate * 100)) ∧
      List.lookup "num_targets" m =
        some (JVal.nat wExp.transcripts.length) ∧
      List.lookup "frag_dist_length" m = some (JVal.nat 10000) :=
  writeMeta_manifest_shape wOpts wExp "start" (by decide)

/-- Claim C1 counterexample: with zero transcripts and
`numBootstraps = numGibbsSamples = 0`, `writeMeta` returns `true` (the
empty-transcript guard sits inside the `numSamples > 0` block and is never
reached), contradicting the claimed failure regardless of those values; and
with `numBootstraps = 4` the `names.tsv.gz` sink is opened (source line 145)
before the guard (line 149), so the file exists, contradicting its claimed
absence. -/
theorem writeMeta_empty_counterexample :
    (writeMeta wOpts emptyExp "start").success = true ∧
    (writeMeta wOpts4 emptyExp "start").namesContent = some "" := by
  constructor <;> rfl

/-- Claim C1 (amended): for an experiment with zero transcripts, `writeMeta`
returns `false` exactly when `num_samples > 0`; in that case the bootstrap
directory and the `names.tsv.gz` file are created, the file holds no names,
and `meta_info.json` is not written; when `num_samples = 0` the call
succeeds and no bootstrap artifacts are created. -/
theorem writeMeta_empty_transcripts (opts : SalmonOpts)
    (experiment : Experiment) (tstring : String)
    (h : experiment.transcripts.length = 0) :
    ((writeMeta opts experiment tstring).success =
      decide ((if 0 < opts.numBootstraps then opts.numBootstraps
        else opts.numGibbsSamples) = 0)) ∧
    ((writeMeta opts experiment tstring).bootstrapDirCreated =
      decide (0 < (if 0 < opts.numBootstraps then opts.numBootstraps
        else opts.numGibbsSamples))) ∧
    ((writeMeta opts experiment tstring).namesContent =
      if 0 < (if 0 < opts.numBootstraps then opts.numBootstraps
        else opts.numGibbsSamples) then some "" else none) ∧
    (0 < (if 0 < opts.numBootstraps then opts.numBootstraps
      else opts.numGibbsSamples) →
      (writeMeta opts experiment tstring).metaInfo = none) := by
  by_cases hs : 0 < (if 0 < opts.numBootstraps then opts.numBootstraps
    else opts.numGibbsSamples)
  · simp [writeMeta, h, hs, Nat.pos_iff_ne_zero.mp hs]
  · simp [writeMeta, h, hs, Nat.eq_zero_of_not_pos hs]

/-- Claim C1 (amended) witness: zero transcripts with four bootstraps gives a
`false` return and no manifest. -/
theorem writeMeta_empty_transcripts_witness :
    (writeMeta wOpts4 emptyExp "start").success = false ∧
    (writeMeta wOpts4 emptyExp "start").metaInfo = none := by
  have h := writeMeta_empty_transcripts wOpts4 emptyExp "start" rfl
  exact ⟨by simpa [wOpts4, wOpts] using h.1, h.2.2.2 (by simp [wOpts4, wOpts])⟩
